import Mathlib

/-!
Verification development for the `news` repository: a shallow embedding of
`scripts/generate_rss_markdown.py` (feed parsing, previous-day filtering,
markdown digest rendering) and `scripts/summarize_long_entries.py`
(link splitting, retrying summarization client, per-run call budget),
together with theorems settling the frozen specification claims.

Python strings are modelled as Lean `String` (a list of characters);
machine-level datetimes are modelled as microsecond counts (`Int`) since
1970-01-01T00:00:00Z.  Network calls and standard-library routines that
perform I/O (`urlopen`, `datetime.now`, the chat-completion endpoint) are
modelled as explicit oracle parameters, so every definition below is a pure
executable function.
-/

/-! ### Python string primitives -/

/-- The whitespace characters recognised by Python's `str.strip` /
`str.split` for the ASCII range (the inputs of this program are ASCII
markdown and XML text). -/
def pyIsSpace (c : Char) : Bool :=
  c = ' ' || c = '\t' || c = '\n' || c = '\r' || c = '\x0b' || c = '\x0c'

/-- Python `s.strip()`. -/
def pyStrip (s : String) : String :=
  (((s.toList.dropWhile pyIsSpace).reverse.dropWhile pyIsSpace).reverse).asString

/-- Python `s.rstrip()`. -/
def pyRstrip (s : String) : String :=
  ((s.toList.reverse.dropWhile pyIsSpace).reverse).asString

/-- Python `s[:n]` for `0 ≤ n`. -/
def strTake (s : String) (n : Nat) : String :=
  (s.toList.take n).asString

/-- Python `s[n:]` for `0 ≤ n`. -/
def strDrop (s : String) (n : Nat) : String :=
  (s.toList.drop n).asString

/-- Python `s.startswith(p)`. -/
def pyStartsWith (s p : String) : Bool :=
  p.toList.isPrefixOf s.toList

/-- ASCII lower-casing, modelling Python `str.lower` on the ASCII inputs
relevant here (exception messages). -/
def pyLower (s : String) : String :=
  (s.toList.map Char.toLower).asString

/-- All positions `i` of `l` at which `sub` occurs (`sub` is a prefix of
`l.drop i`), in increasing order. -/
def occurrences (sub l : List Char) : List Nat :=
  (List.range (l.length + 1)).filter (fun i => sub.isPrefixOf (l.drop i))

/-- Python `s.find(sub)`: the first occurrence of `sub`, or `none` (for `-1`). -/
def pyFind (s sub : String) : Option Nat :=
  (occurrences sub.toList s.toList).head?

/-- Python `s.rfind(sub)`: the last occurrence of `sub`, or `none` (for `-1`). -/
def pyRfind (s sub : String) : Option Nat :=
  (occurrences sub.toList s.toList).getLast?

/-- Python `s.rfind(sub, 0, stop)`: the last occurrence of `sub` lying
entirely inside `s[0:stop]`, or `none` (for `-1`). -/
def pyRfindBefore (s sub : String) (stop : Nat) : Option Nat :=
  ((occurrences sub.toList s.toList).filter
    (fun i => i + sub.toList.length ≤ stop)).getLast?

/-- Python `sub in s` (substring containment). -/
def pyContains (s sub : String) : Bool :=
  (pyFind s sub).isSome

/-! ### UTC microsecond timeline

`daysFromCivil` is the standard proleptic-Gregorian day count (days since
1970-01-01); `utcUs` turns a civil UTC date-time into microseconds since
the epoch.  These are used to state claims at concrete calendar dates. -/

def daysFromCivil (y m d : Int) : Int :=
  let y1 : Int := if m ≤ 2 then y - 1 else y
  let era : Int := y1.fdiv 400
  let yoe : Int := y1 - era * 400
  let mp : Int := (m + 9) % 12
  let doy : Int := (153 * mp + 2).fdiv 5 + d - 1
  let doe : Int := yoe * 365 + yoe.fdiv 4 - yoe.fdiv 100 + doy
  era * 146097 + doe - 719468

def usecPerDay : Int := 86400000000

def utcUs (y m d h mi s us : Int) : Int :=
  (daysFromCivil y m d * 86400 + h * 3600 + mi * 60 + s) * 1000000 + us

/-- A Python `datetime` value: its wall-clock reading in microseconds
(counted as if it were UTC) and its `tzinfo` as an optional UTC offset in
microseconds (`none` models a timezone-naive value). -/
structure PyDateTime where
  wall : Int
  tzOffsetUs : Option Int
deriving DecidableEq

/-- The absolute UTC instant of a datetime after the normalization done by
`_filter_previous_day`: a naive value gets `tzinfo=timezone.utc` attached
(same wall reading, offset 0), then `astimezone(timezone.utc)` subtracts
the offset. -/
def PyDateTime.toUtcUs : PyDateTime → Int
  | ⟨w, none⟩ => w
  | ⟨w, some off⟩ => w - off

/-! ### FeedEntry and the previous-day window (`generate_rss_markdown.py`) -/

/-- One normalized feed item, as built by `_parse_rss_items` /
`_parse_atom_entries` (dict with keys `title`, `message`, `link`, `date`). -/
structure FeedEntry where
  title : String
  message : String
  link : String
  date : Option PyDateTime
deriving DecidableEq

/-- `_yesterday_range_utc`, with the `datetime.now(tz=timezone.utc)` read
passed in as `nowUs`:  `yesterday = (now - 1 day).date()`,
`start = yesterday 00:00:00.000000`, `end = yesterday 23:59:59.999999`. -/
def yesterdayRangeUtc (nowUs : Int) : Int × Int :=
  let yday : Int := (nowUs - usecPerDay).fdiv usecPerDay
  (yday * usecPerDay, yday * usecPerDay + (usecPerDay - 1))

/-- `_filter_previous_day`.  The function calls `_yesterday_range_utc()`
itself, reading the wall clock at that moment; the reading is the `nowUs`
argument.  An entry whose `date` is not a datetime is skipped; a naive
date is assumed UTC; the window comparison is inclusive on both ends. -/
def filterPreviousDay (nowUs : Int) (entries : List FeedEntry) : List FeedEntry :=
  let window := yesterdayRangeUtc nowUs
  entries.filter fun e =>
    match e.date with
    | none => false
    | some d => decide (window.1 ≤ d.toUtcUs) && decide (d.toUtcUs ≤ window.2)

/-! ### HTML cleaning (`_clean_text`) -/

/-- Model of `html.unescape` at the standard-library boundary, covering the
basic named/numeric character references that occur in feed bodies; all
other text passes through unchanged. -/
def unescapeGo : List Char → List Char
  | [] => []
  | '&' :: 'a' :: 'm' :: 'p' :: ';' :: tail => '&' :: unescapeGo tail
  | '&' :: 'l' :: 't' :: ';' :: tail => '<' :: unescapeGo tail
  | '&' :: 'g' :: 't' :: ';' :: tail => '>' :: unescapeGo tail
  | '&' :: 'q' :: 'u' :: 'o' :: 't' :: ';' :: tail => '"' :: unescapeGo tail
  | '&' :: 'a' :: 'p' :: 'o' :: 's' :: ';' :: tail => '\'' :: unescapeGo tail
  | '&' :: '#' :: '3' :: '9' :: ';' :: tail => '\'' :: unescapeGo tail
  | c :: rest => c :: unescapeGo rest

def unescapeHtml (s : String) : String := (unescapeGo s.toList).asString

/-- `re.sub(r"<[^>]+>", " ", text)`: each maximal `<`…`>` group with at
least one non-`>` character inside is replaced by a single space; a `<`
with no matching `>` ahead, or an empty `<>`, is left as-is.  The `Nat`
argument is recursion fuel, always started at the list length, which every
step strictly exceeds the characters it consumes. -/
def stripTagsGo : Nat → List Char → List Char
  | _, [] => []
  | 0, l => l
  | fuel + 1, c :: rest =>
    if c = '<' then
      match rest.findIdx? (fun x => x = '>') with
      | none => c :: rest
      | some 0 => c :: stripTagsGo fuel rest
      | some (k + 1) => ' ' :: stripTagsGo fuel (rest.drop (k + 2))
    else c :: stripTagsGo fuel rest

def stripTags (s : String) : String :=
  (stripTagsGo s.toList.length s.toList).asString

/-- Python `text.split()`: maximal runs of non-whitespace characters. -/
def pyWordsAux : List Char → List Char → List (List Char)
  | [], acc => if acc.isEmpty then [] else [acc.reverse]
  | c :: rest, acc =>
    if pyIsSpace c then
      if acc.isEmpty then pyWordsAux rest [] else acc.reverse :: pyWordsAux rest []
    else pyWordsAux rest (c :: acc)

def pyWords (s : String) : List String :=
  (pyWordsAux s.toList []).map List.asString

/-- `" ".join(text.split())`. -/
def joinWords (s : String) : String :=
  String.intercalate " " (pyWords s)

/-- `_clean_text`: `None` and the empty string give `""`; otherwise
unescape entities, replace tag groups by spaces, collapse whitespace. -/
def cleanText (t : Option String) : String :=
  match t with
  | none => ""
  | some s =>
    if s = "" then ""
    else pyStrip (joinWords (stripTags (unescapeHtml s)))

/-! ### XML documents and the feed parsers -/

/-- An `xml.etree.ElementTree` element: tag (possibly `{namespace}`-prefixed),
attributes, text node, child elements. -/
inductive Xml where
  | elem (tag : String) (attrib : List (String × String)) (text : Option String)
      (children : List Xml)

def Xml.tag : Xml → String
  | .elem t _ _ _ => t

def Xml.attrib : Xml → List (String × String)
  | .elem _ a _ _ => a

def Xml.text : Xml → Option String
  | .elem _ _ x _ => x

def Xml.children : Xml → List Xml
  | .elem _ _ _ cs => cs

/-- `_local`: strip a `{namespace}` marker by splitting at the first `}`. -/
def localName (tag : String) : String :=
  match pyFind tag "\x7d" with
  | some i => strDrop tag (i + 1)
  | none => tag

/-- `_child_text`: the stripped text of the first child whose local tag
matches, `none` when there is no such child. -/
def childText (el : Xml) (name : String) : Option String :=
  match el.children.find? (fun c => localName c.tag == name) with
  | some c => some (pyStrip (c.text.getD ""))
  | none => none

/-- Python `a or b` where `a` is an optional string and the result must be
a string (`None` and `""` are falsy). -/
def pyOrStr (a : Option String) (b : String) : String :=
  match a with
  | none => b
  | some s => if s = "" then b else s

/-- Python `a or b` on optional strings, keeping the optional shape. -/
def pyOrOpt (a b : Option String) : Option String :=
  match a with
  | none => b
  | some s => if s = "" then b else some s

/-- The body text selected for an RSS item: `description or content or title`. -/
def rssBody (item : Xml) (title : String) : Option String :=
  pyOrOpt (childText item "description")
    (pyOrOpt (childText item "encoded") (some title))

/-- The loop body of `_parse_rss_items` for one `item` element; `dp`
models `_parse_date` (library date parsing). -/
def rssEntryOfItem (dp : Option String → Option PyDateTime) (item : Xml) : FeedEntry :=
  let title := pyOrStr (childText item "title") "Untitled"
  let link := pyOrStr (childText item "link") ""
  let pubDate := dp (childText item "pubDate")
  let message := pyOrStr (some (cleanText (rssBody item title))) "Untitled"
  ⟨title, message, link, pubDate⟩

def firstChannel (root : Xml) : Option Xml :=
  root.children.find? (fun c => localName c.tag == "channel")

/-- `_parse_rss_items`. -/
def parseRssItems (dp : Option String → Option PyDateTime) (root : Xml) : List FeedEntry :=
  match firstChannel root with
  | none => []
  | some ch =>
    (ch.children.filter (fun c => localName c.tag == "item")).map (rssEntryOfItem dp)

/-- The link-selection loop of `_parse_atom_entries`: prefer the first
`link` child with `rel="alternate"` (default) and a truthy `href`
(breaking there), otherwise remember the first truthy `href` seen. -/
def atomLinkScan : List Xml → String → String
  | [], acc => acc
  | el :: rest, acc =>
    if localName el.tag == "link" then
      let rel := (List.lookup "rel" el.attrib).getD "alternate"
      let href := (List.lookup "href" el.attrib).getD ""
      if rel == "alternate" && href != "" then href
      else if acc == "" && href != "" then atomLinkScan rest href
      else atomLinkScan rest acc
    else atomLinkScan rest acc

/-- The body text selected for an Atom entry: `summary or content or title`. -/
def atomBody (entry : Xml) (title : String) : Option String :=
  pyOrOpt (childText entry "summary")
    (pyOrOpt (childText entry "content") (some title))

/-- The loop body of `_parse_atom_entries` for one `entry` element. -/
def atomEntryOf (dp : Option String → Option PyDateTime) (entry : Xml) : FeedEntry :=
  let title := pyOrStr (childText entry "title") "Untitled"
  let link := atomLinkScan entry.children ""
  let date := dp (pyOrOpt (childText entry "updated") (childText entry "published"))
  let message := pyOrStr (some (cleanText (atomBody entry title))) "Untitled"
  ⟨title, message, link, date⟩

/-- `_parse_atom_entries`. -/
def parseAtomEntries (dp : Option String → Option PyDateTime) (root : Xml) : List FeedEntry :=
  (root.children.filter (fun c => localName c.tag == "entry")).map (atomEntryOf dp)

/-- All proper descendants of an element, in document order
(for `root.findall(".//item")`). -/
def xmlDescendants : Xml → List Xml
  | .elem _ _ _ cs => (cs.attach.map (fun c => c.1 :: xmlDescendants c.1)).flatten
decreasing_by
  have := List.sizeOf_lt_of_mem c.2
  cases c
  simp at this ⊢
  omega

/-- `root.findall(".//item")` is non-empty (exact tag match, as in
ElementTree path syntax). -/
def hasDescendantItem (root : Xml) : Bool :=
  (xmlDescendants root).any (fun c => c.tag == "item")

/-- Dialect dispatch shared by `_parse_feed` / `_parse_feed_with_title`,
after a successful `ET.fromstring`. -/
def parseFeedRoot (dp : Option String → Option PyDateTime) (root : Xml) : List FeedEntry :=
  if localName root.tag == "rss" then parseRssItems dp root
  else if localName root.tag == "feed" then parseAtomEntries dp root
  else if hasDescendantItem root then parseRssItems dp root
  else parseAtomEntries dp root

/-- `_parse_feed_title`. -/
def parseFeedTitle (root : Xml) : Option String :=
  if localName root.tag == "rss" then
    match firstChannel root with
    | some ch => childText ch "title"
    | none => none
  else if localName root.tag == "feed" then childText root "title"
  else none

/-- A fetched feed document as seen by `ET.fromstring`: either malformed
XML (parsing raises, carrying a message) or a well-formed tree. -/
inductive Doc where
  | malformed (msg : String)
  | wellFormed (root : Xml)

/-- `_parse_feed`: `ET.fromstring` raises on malformed XML (modelled as
`Except.error`), then dispatches on the root dialect. -/
def parseFeed (dp : Option String → Option PyDateTime) : Doc → Except String (List FeedEntry)
  | .malformed m => .error m
  | .wellFormed root => .ok (parseFeedRoot dp root)

/-- `_parse_feed_with_title`. -/
def parseFeedWithTitle (dp : Option String → Option PyDateTime) :
    Doc → Except String (Option String × List FeedEntry)
  | .malformed m => .error m
  | .wellFormed root => .ok (parseFeedTitle root, parseFeedRoot dp root)

/-! ### URL encoding (`urllib.parse.quote_plus`) -/

/-- UTF-8 encoding of one character (byte values as `Nat`). -/
def utf8Bytes (c : Char) : List Nat :=
  let n := c.toNat
  if n < 128 then [n]
  else if n < 2048 then [192 + n / 64, 128 + n % 64]
  else if n < 65536 then [224 + n / 4096, 128 + n / 64 % 64, 128 + n % 64]
  else [240 + n / 262144, 128 + n / 4096 % 64, 128 + n / 64 % 64, 128 + n % 64]

def strUtf8 (s : String) : List Nat :=
  (s.toList.map utf8Bytes).flatten

/-- The bytes `quote_plus` leaves unencoded: ASCII letters, digits,
`_`, `.`, `-`, `~`. -/
def quoteSafeByte (b : Nat) : Bool :=
  (65 ≤ b && b ≤ 90) || (97 ≤ b && b ≤ 122) || (48 ≤ b && b ≤ 57) ||
    b = 95 || b = 46 || b = 45 || b = 126

def hexUpper (n : Nat) : Char :=
  if n < 10 then Char.ofNat (48 + n) else Char.ofNat (55 + n)

/-- `urllib.parse.quote_plus`: percent-encode every unsafe UTF-8 byte with
upper-case hex, turning spaces into `+`. -/
def quotePlus (s : String) : String :=
  ((strUtf8 s).map (fun b =>
    if quoteSafeByte b then [Char.ofNat b]
    else if b = 32 then ['+']
    else ['%', hexUpper (b / 16), hexUpper (b % 16)])).flatten.asString

/-! ### Markdown rendering (`generate_markdown` and helpers) -/

/-- The fixed Bluesky compose-intent share URL built inside
`_format_link_pair`. -/
def bskyShareUrl (message link : String) : String :=
  "https://bsky.app/intent/compose?text=" ++ quotePlus (message ++ " " ++ link)

/-- `_format_link_pair`. -/
def formatLinkPair (message link linkLabel : String) (includeShare : Bool) : String :=
  if link = "" then message
  else if includeShare then
    message ++ " [" ++ linkLabel ++ "](" ++ link ++ ") [Bsky](" ++
      bskyShareUrl message link ++ ")"
  else message ++ " [" ++ linkLabel ++ "](" ++ link ++ ")"

/-- `datetime.min` (year 1, Jan 1, midnight, naive). -/
def pyDateTimeMin : PyDateTime := ⟨utcUs 1 1 1 0 0 0 0, none⟩

/-- The sort key `e.get("date") or datetime.min` used by the Bluesky
pre-sort and `_latest_entry`, compared on the UTC timeline (naive values
read as UTC; Python would raise on mixed naive/aware comparisons, which
do not occur for a single feed's entries). -/
def entryDateKey (e : FeedEntry) : Int :=
  (e.date.getD pyDateTimeMin).toUtcUs

/-- `sorted(entries, key=..., reverse=True)` / `entries.sort(...)`:
a stable descending sort by date key. -/
def sortDescByDate (entries : List FeedEntry) : List FeedEntry :=
  entries.mergeSort (fun a b => decide (entryDateKey b ≤ entryDateKey a))

/-- `_latest_entry`. -/
def latestEntry (entries : List FeedEntry) : Option FeedEntry :=
  if entries.isEmpty then none else (sortDescByDate entries).head?

/-- A configured blog feed / YouTube channel (`{url, name}`). -/
structure NamedFeed where
  url : String
  name : String

/-- A Bluesky list member (`{name, url}`). -/
structure BskySource where
  name : String
  url : String

/-- `entry.get("title") or entry.get("message") or "Untitled"` (blog and
YouTube bullets). -/
def blogMessageOf (e : FeedEntry) : String :=
  pyOrStr (some e.title) (pyOrStr (some e.message) "Untitled")

/-- `entry.get("message") or entry.get("title") or "Untitled"` (Bluesky
bullets). -/
def bskyMessageOf (e : FeedEntry) : String :=
  pyOrStr (some e.message) (pyOrStr (some e.title) "Untitled")

/-- One blog-section bullet line. -/
def blogBullet (e : FeedEntry) : String :=
  "- " ++ formatLinkPair (blogMessageOf e) (pyOrStr (some e.link) "") "Article" true

/-- One YouTube-section bullet line. -/
def youtubeBullet (e : FeedEntry) : String :=
  "- " ++ formatLinkPair (blogMessageOf e) (pyOrStr (some e.link) "") "Video" true

/-- One Bluesky-section bullet line (`include_share=False`). -/
def bskyBullet (e : FeedEntry) : String :=
  "- " ++ formatLinkPair (bskyMessageOf e) (pyOrStr (some e.link) "") "Post" false

/-- One GitHub-releases bullet line for a repository's latest qualifying
release. -/
def githubBullet (repo : String) (latest : FeedEntry) : String :=
  let title := pyOrStr (some latest.title) "Untitled"
  let details := latest.message
  let link := pyOrStr (some latest.link) ("https://github.com/" ++ repo ++ "/releases")
  let fullMsg :=
    if details ≠ "" ∧ details ≠ title then repo ++ ": " ++ title ++ " — " ++ details
    else repo ++ ": " ++ title
  "- " ++ formatLinkPair fullMsg link "Release" true

/-- The blog loop of `generate_markdown`.  `fetch` models `_fetch_bytes`
(`none` = fetch failed, warning printed, source skipped); `clocks k` is
the wall-clock reading consumed by the `k`-th `_filter_previous_day`
call of the run; a parse error propagates (nothing catches it). -/
def blogLoop (fetch : String → Option Doc) (dp : Option String → Option PyDateTime)
    (clocks : Nat → Int) : List NamedFeed → Nat → Except String (List String × Nat)
  | [], k => .ok ([], k)
  | feed :: rest, k =>
    match fetch feed.url with
    | none => blogLoop fetch dp clocks rest k
    | some doc =>
      match parseFeedWithTitle dp doc with
      | .error m => .error m
      | .ok (ftitle, entries0) =>
        let entries := filterPreviousDay (clocks k) entries0
        if entries.isEmpty then blogLoop fetch dp clocks rest (k + 1)
        else
          let name := pyOrStr (some feed.name) (pyOrStr ftitle feed.url)
          match blogLoop fetch dp clocks rest (k + 1) with
          | .error m => .error m
          | .ok (restLines, kEnd) =>
            .ok (("### " ++ name) :: "" :: (entries.map blogBullet ++ ("" :: restLines)), kEnd)

/-- The YouTube loop of `generate_markdown`; `resolveId` models
`_extract_youtube_channel_id` (which may fetch the channel page), with
`""` meaning the id could not be resolved (warning printed, source
skipped). -/
def youtubeLoop (fetch : String → Option Doc) (resolveId : String → String)
    (dp : Option String → Option PyDateTime) (clocks : Nat → Int) :
    List NamedFeed → Nat → Except String (List String × Nat)
  | [], k => .ok ([], k)
  | channel :: rest, k =>
    let cid := resolveId channel.url
    if cid = "" then youtubeLoop fetch resolveId dp clocks rest k
    else
      match fetch ("https://www.youtube.com/feeds/videos.xml?channel_id=" ++ cid) with
      | none => youtubeLoop fetch resolveId dp clocks rest k
      | some doc =>
        match parseFeedWithTitle dp doc with
        | .error m => .error m
        | .ok (ftitle, entries0) =>
          let entries := filterPreviousDay (clocks k) entries0
          if entries.isEmpty then youtubeLoop fetch resolveId dp clocks rest (k + 1)
          else
            let name := pyOrStr (some channel.name) (pyOrStr ftitle channel.url)
            match youtubeLoop fetch resolveId dp clocks rest (k + 1) with
            | .error m => .error m
            | .ok (restLines, kEnd) =>
              .ok (("### " ++ name) :: "" ::
                (entries.map youtubeBullet ++ ("" :: restLines)), kEnd)

/-- The Bluesky loop of `generate_markdown`: parse, sort newest-first,
then filter to the window. -/
def bskyLoop (fetch : String → Option Doc) (dp : Option String → Option PyDateTime)
    (clocks : Nat → Int) : List BskySource → Nat → Except String (List String × Nat)
  | [], k => .ok ([], k)
  | src :: rest, k =>
    match fetch src.url with
    | none => bskyLoop fetch dp clocks rest k
    | some doc =>
      match parseFeed dp doc with
      | .error m => .error m
      | .ok entries0 =>
        let entries := filterPreviousDay (clocks k) (sortDescByDate entries0)
        if entries.isEmpty then bskyLoop fetch dp clocks rest (k + 1)
        else
          match bskyLoop fetch dp clocks rest (k + 1) with
          | .error m => .error m
          | .ok (restLines, kEnd) =>
            .ok (("### " ++ src.name) :: "" ::
              (entries.map bskyBullet ++ ("" :: restLines)), kEnd)

/-- The GitHub-releases loop of `generate_markdown`: one bullet per
repository, for the most recent entry inside the window. -/
def githubLoop (fetch : String → Option Doc) (dp : Option String → Option PyDateTime)
    (clocks : Nat → Int) : List String → Nat → Except String (List String × Nat)
  | [], k => .ok ([], k)
  | repo :: rest, k =>
    match fetch ("https://github.com/" ++ repo ++ "/releases.atom") with
    | none => githubLoop fetch dp clocks rest k
    | some doc =>
      match parseFeed dp doc with
      | .error m => .error m
      | .ok entries0 =>
        let entries := filterPreviousDay (clocks k) entries0
        if entries.isEmpty then githubLoop fetch dp clocks rest (k + 1)
        else
          match latestEntry entries with
          | none => githubLoop fetch dp clocks rest (k + 1)
          | some latest =>
            match githubLoop fetch dp clocks rest (k + 1) with
            | .error m => .error m
            | .ok (restLines, kEnd) =>
              .ok (githubBullet repo latest :: restLines, kEnd)

/-- `generate_markdown`: assemble the four category sections in fixed
order (Blogs, YouTube, BlueSky, GitHub Releases), omitting a category
heading when its section is empty, and end with
`"\n".join(lines).rstrip() + "\n"`.  The wall-clock readings of the
successive `_filter_previous_day` calls are `clocks 0, clocks 1, …` in
processing order; `reportDate` is accepted and unused, as in the source. -/
def generateMarkdown (fetch : String → Option Doc) (resolveId : String → String)
    (dp : Option String → Option PyDateTime) (clocks : Nat → Int)
    (sources : List BskySource) (githubRepos : List String)
    (blogFeeds : List NamedFeed) (youtubeChannels : List NamedFeed)
    (_reportDate : String) : Except String String :=
  match blogLoop fetch dp clocks blogFeeds 0 with
  | .error m => .error m
  | .ok (blogLines, k1) =>
    match youtubeLoop fetch resolveId dp clocks youtubeChannels k1 with
    | .error m => .error m
    | .ok (ytLines, k2) =>
      match bskyLoop fetch dp clocks sources k2 with
      | .error m => .error m
      | .ok (bskyLines, k3) =>
        match githubLoop fetch dp clocks githubRepos k3 with
        | .error m => .error m
        | .ok (ghLines, _) =>
          let lines :=
            (if blogLines.isEmpty then [] else "## Blogs" :: "" :: blogLines) ++
            (if ytLines.isEmpty then [] else "## YouTube" :: "" :: ytLines) ++
            (if bskyLines.isEmpty then [] else "## BlueSky" :: "" :: bskyLines) ++
            (if ghLines.isEmpty then [] else "## GitHub Releases" :: "" :: ghLines)
          .ok (pyRstrip (String.intercalate "\n" lines) ++ "\n")

/-! ### Summarization client (`summarize_long_entries.py`) -/

/-- `_wrap_summary`: collapse whitespace, replace double quotes by single
quotes, strip, and wrap in double quotes; the empty string is returned
as-is. -/
def wrapSummary (text : String) : String :=
  if text = "" then text
  else
    let clean := String.intercalate " " (pyWords text)
    let clean := pyStrip ((clean.toList.map (fun c => if c = '"' then '\'' else c)).asString)
    "\"" ++ clean ++ "\""

/-- `_split_link`: split a line at the last `" ["` that opens the last
`"]("` marker; without both markers the whole line is the message and the
link part is empty. -/
def splitLink (line : String) : String × String :=
  match pyRfind line "](" with
  | none => (line, "")
  | some idx =>
    match pyRfindBefore line " [" idx with
    | none => (line, "")
    | some start => (strTake line start, strDrop line start)

/-- An exception raised by one summarization attempt, as observed by the
retry loop of `_call_github_models`: its string rendering `str(e)` and
the optional `Retry-After` header obtained via
`getattr(e, "headers", None)`. -/
structure CallFailure where
  msg : String
  retryAfter : Option Int
deriving DecidableEq

/-- The outcome of one `_call_with_timeout` attempt: the (already
stripped) completion content, or an exception. -/
inductive CallResult where
  | success (content : String)
  | failure (f : CallFailure)

/-- The crude rate-limit check of the retry loop:
`"429" in str(e) or "rate" in str(e).lower()`. -/
def isRateLimitFailure (f : CallFailure) : Bool :=
  pyContains f.msg "429" || pyContains (pyLower f.msg) "rate"

/-- The backoff delay chosen in the rate-limited branch: a positive
server-supplied `Retry-After` wins, otherwise `retryDelay * 2 ^ attempt`. -/
def rateLimitDelay (retryDelay : Int) (attempt : Nat) (f : CallFailure) : Int :=
  match f.retryAfter with
  | some d => if d ≤ 0 then retryDelay * 2 ^ attempt else d
  | none => retryDelay * 2 ^ attempt

/-- `prompt[:MAX_INPUT_LENGTH] + "..."` when the prompt is over-long. -/
def truncInput (prompt : String) (maxInput : Nat) : String :=
  if prompt.length > maxInput then strTake prompt maxInput ++ "..." else prompt

/-- The `for attempt in range(MAX_RETRIES)` loop of `_call_github_models`.
`fuel` is the number of attempts still available (`maxRetries - attempt`);
`results sent i` is the outcome of attempt `i` for the sent prompt;
`delays` accumulates the `time.sleep` amounts in order.  When the loop
body never runs (`MAX_RETRIES = 0`) Python falls off the function and
returns `None`, modelled as the falsy `""`. -/
def callLoop (results : String → Nat → CallResult) (sent : String)
    (retryDelay : Int) (maxChars : Nat)
    (fuel attempt : Nat) (delays : List Int) : Except String (String × List Int) :=
  if fuel = 0 then .ok ("", delays)
  else
    match results sent attempt with
    | .success content =>
      let content :=
        if content.length > maxChars then pyRstrip (strTake content (maxChars - 1)) ++ "…"
        else content
      .ok (content, delays)
    | .failure f =>
      if fuel = 1 then .error f.msg
      else if isRateLimitFailure f then
        callLoop results sent retryDelay maxChars (fuel - 1) (attempt + 1)
          (delays ++ [rateLimitDelay retryDelay attempt f])
      else
        callLoop results sent retryDelay maxChars (fuel - 1) (attempt + 1)
          (delays ++ [retryDelay * 2 ^ attempt])
termination_by fuel
decreasing_by all_goals omega

/-- `_call_github_models`: missing token raises immediately; an over-long
prompt is truncated with an ellipsis marker before being sent; then the
retry loop runs.  The inter-call pacing sleep only delays execution and is
not part of the data flow.  The returned pair is the content and the list
of backoff sleeps performed. -/
def callGithubModels (token : Option String) (results : String → Nat → CallResult)
    (maxRetries : Nat) (retryDelay : Int) (maxInput maxChars : Nat)
    (prompt : String) : Except String (String × List Int) :=
  match token with
  | none => .error "Missing GITHUB_TOKEN or GITHUB_MODELS_TOKEN."
  | some _ =>
    let sent := truncInput prompt maxInput
    callLoop results sent retryDelay maxChars maxRetries 0 []

/-- `_summarize_line`, instrumented with the list of prompts actually sent
through summarization (empty = no API call made).  `call` models
`_call_github_models` on the extracted message text; every exception is
caught and the original line kept, as is an empty summary. -/
def summarizeLineT (call : String → Except String String) (maxChars : Nat)
    (line : String) : String × List String :=
  if ¬ pyStartsWith line "- " then (line, [])
  else
    let pair := splitLink line
    let text := pyStrip (strDrop pair.1 2)
    if text.length ≤ maxChars then (line, [])
    else
      match call text with
      | .error _ => (line, [text])
      | .ok summary =>
        if summary = "" then (line, [text])
        else ("- " ++ wrapSummary summary ++ pair.2, [text])

/-- `_summarize_line` (the rewritten line only). -/
def summarizeLine (call : String → Except String String) (maxChars : Nat)
    (line : String) : String :=
  (summarizeLineT call maxChars line).1

/-- Whether the `main` loop classifies a line as an over-length bullet
(`line.startswith("- ")` and extracted text longer than `max_chars`). -/
def needsSummary (maxChars : Nat) (line : String) : Bool :=
  pyStartsWith line "- " && decide ((pyStrip (strDrop (splitLink line).1 2)).length > maxChars)

/-- The per-line loop of `main` in `summarize_long_entries.py`: rewrite
over-length bullets through `_summarize_line` while the call budget
(`lines_summarized < max_calls`) lasts; afterwards over-length bullets
pass through unchanged.  Returns the updated lines and the final
`lines_summarized` counter. -/
def summarizeRunAux (call : String → Except String String) (maxChars maxCalls : Nat) :
    List String → Nat → List String × Nat
  | [], count => ([], count)
  | line :: rest, count =>
    if needsSummary maxChars line then
      if count ≥ maxCalls then
        let out := summarizeRunAux call maxChars maxCalls rest count
        (line :: out.1, out.2)
      else
        let out := summarizeRunAux call maxChars maxCalls rest (count + 1)
        (summarizeLine call maxChars line :: out.1, out.2)
    else
      let out := summarizeRunAux call maxChars maxCalls rest count
      (line :: out.1, out.2)

/-- The whole summarization pass over a document's lines. -/
def summarizeRun (call : String → Except String String) (maxChars maxCalls : Nat)
    (lines : List String) : List String × Nat :=
  summarizeRunAux call maxChars maxCalls lines 0

/-- The number of over-length bullets among `lines`. -/
def countNeedy (maxChars : Nat) (lines : List String) : Nat :=
  (lines.filter (needsSummary maxChars)).length

/-! ### Concrete scenarios used by the claim theorems -/

/-- A well-formed RSS document with one item titled `t`, dated by the
`pubDate` text `"D"`. -/
def marNoonEntryDoc (t : String) : Xml :=
  .elem "rss" [] none [.elem "channel" [] none [.elem "item" [] none
    [.elem "title" [] (some t) [], .elem "pubDate" [] (some "D") []]]]

/-- A date-parsing oracle taking the text `"D"` to
2024-03-14T12:00:00+00:00 and failing on everything else. -/
def dpMar14 : Option String → Option PyDateTime := fun o =>
  match o with
  | some "D" => some ⟨utcUs 2024 3 14 12 0 0 0, some 0⟩
  | _ => none

/-- A fetch oracle: `u1` yields malformed XML, `u2` a well-formed feed
with one qualifying entry. -/
def c2Fetch : String → Option Doc := fun u =>
  if u = "u1" then some (.malformed "boom")
  else if u = "u2" then some (.wellFormed (marNoonEntryDoc "E2")) else none

/-- A fetch oracle: both `u1` and `u2` yield well-formed feeds with one
2024-03-14 entry each. -/
def c3Fetch : String → Option Doc := fun u =>
  if u = "u1" then some (.wellFormed (marNoonEntryDoc "E1"))
  else if u = "u2" then some (.wellFormed (marNoonEntryDoc "E2")) else none

/-- A wall clock that crosses UTC midnight between the first and second
`_filter_previous_day` call of a run. -/
def c3Clocks : Nat → Int := fun k =>
  if k = 0 then utcUs 2024 3 15 23 59 59 0 else utcUs 2024 3 16 0 0 0 0

/-- An entry stamped 2024-03-14T12:00:00+00:00. -/
def mar14Entry : FeedEntry := ⟨"E", "E", "", some ⟨utcUs 2024 3 14 12 0 0 0, some 0⟩⟩

/-! ### Claim theorems -/

/-- C1: with a reference now of 2024-03-15T10:00:00Z, the previous-day
filter retains exactly the entries whose timestamp, normalized to UTC
(a naive timestamp being read as UTC already), lies in the inclusive
window [2024-03-14T00:00:00Z, 2024-03-14T23:59:59.999999Z], and drops
entries with no timestamp or a timestamp in any other day. -/
theorem c1_previous_day_window :
    ∀ (entries : List FeedEntry) (e : FeedEntry),
      (e ∈ filterPreviousDay (utcUs 2024 3 15 10 0 0 0) entries ↔
        e ∈ entries ∧ ∃ d, e.date = some d ∧
          utcUs 2024 3 14 0 0 0 0 ≤ d.toUtcUs ∧
          d.toUtcUs ≤ utcUs 2024 3 14 23 59 59 999999) ∧
      ∀ w : Int, PyDateTime.toUtcUs ⟨w, none⟩ = PyDateTime.toUtcUs ⟨w, some 0⟩ := by
  intro entries e
  constructor
  · have hw : yesterdayRangeUtc (utcUs 2024 3 15 10 0 0 0)
        = (utcUs 2024 3 14 0 0 0 0, utcUs 2024 3 14 23 59 59 999999) := by decide
    simp only [filterPreviousDay, hw, List.mem_filter]
    refine and_congr_right fun _ => ?_
    cases hd : e.date with
    | none => simp [hd]
    | some d => simp [hd]
  · intro w
    simp [PyDateTime.toUtcUs]

/-- C2 counterexample: with the first blog source malformed and the second
well-formed with a qualifying entry, the run aborts with the parse error
and produces no digest — whereas dropping the malformed source shows the
second source alone renders fine.  Malformed XML is not skipped: nothing
in `generate_markdown` catches the parse failure. -/
theorem c2_counterexample :
    generateMarkdown c2Fetch (fun _ => "") dpMar14 (fun _ => utcUs 2024 3 15 10 0 0 0)
      [] [] [⟨"u1", "F1"⟩, ⟨"u2", "F2"⟩] [] "d" = .error "boom" ∧
    generateMarkdown c2Fetch (fun _ => "") dpMar14 (fun _ => utcUs 2024 3 15 10 0 0 0)
      [] [] [⟨"u2", "F2"⟩] [] "d" = .ok "## Blogs\n\n### F2\n\n- E2\n" :=
  ⟨by rfl, by rfl⟩

/-- C2 amended: a malformed feed document makes the parse of that source
fail, and the failure is fatal to the whole digest run — the error
propagates out of `generate_markdown` and no further source or category
is processed (only fetch failures are skipped with a warning). -/
theorem c2_parse_error_aborts_run :
    ∀ (fetch : String → Option Doc) (resolveId : String → String)
      (dp : Option String → Option PyDateTime) (clocks : Nat → Int)
      (sources : List BskySource) (repos : List String)
      (rest yts : List NamedFeed) (rdate : String) (f : NamedFeed) (m : String),
      fetch f.url = some (Doc.malformed m) →
      generateMarkdown fetch resolveId dp clocks sources repos (f :: rest) yts rdate
        = .error m := by
  intro fetch resolveId dp clocks sources repos rest yts rdate f m h
  simp [generateMarkdown, blogLoop, h, parseFeedWithTitle]

/-- C2 witness: the amended theorem applied to the concrete scenario. -/
theorem c2_witness :
    c2Fetch "u1" = some (Doc.malformed "boom") ∧
    generateMarkdown c2Fetch (fun _ => "") dpMar14 (fun _ => utcUs 2024 3 15 10 0 0 0)
      [] [] [⟨"u1", "F1"⟩, ⟨"u2", "F2"⟩] [] "d" = .error "boom" :=
  ⟨by rfl,
   c2_parse_error_aborts_run c2Fetch (fun _ => "") dpMar14
     (fun _ => utcUs 2024 3 15 10 0 0 0) [] [] [⟨"u2", "F2"⟩] [] "d"
     ⟨"u1", "F1"⟩ "boom" (by rfl)⟩

/-- C3 counterexample: the same 2024-03-14 entry is retained by the filter
step whose clock reads 2024-03-15T23:59:59Z and dropped by the filter step
whose clock reads 2024-03-16T00:00:00Z; in a single run whose wall clock
crosses UTC midnight between two identically-dated blog sources, only the
first source is rendered.  The window is recomputed per filter call, not
once per run. -/
theorem c3_counterexample :
    filterPreviousDay (c3Clocks 0) [mar14Entry] = [mar14Entry] ∧
    filterPreviousDay (c3Clocks 1) [mar14Entry] = [] ∧
    generateMarkdown c3Fetch (fun _ => "") dpMar14 c3Clocks
      [] [] [⟨"u1", "F1"⟩, ⟨"u2", "F2"⟩] [] "d" = .ok "## Blogs\n\n### F1\n\n- E1\n" :=
  ⟨by decide, by decide, by rfl⟩

/-- C3 amended: each per-source filtering step recomputes the window from
the wall clock at that moment; as long as two clock readings fall on the
same UTC calendar day they determine the same window, so the retained set
is unchanged — but a reading on a different UTC day (e.g. past midnight)
changes the window. -/
theorem c3_same_day_same_window :
    ∀ (now1 now2 : Int) (entries : List FeedEntry),
      now1.fdiv usecPerDay = now2.fdiv usecPerDay →
      filterPreviousDay now1 entries = filterPreviousDay now2 entries := by
  intro now1 now2 entries h
  have key : ∀ a : Int, (a - usecPerDay).fdiv usecPerDay = a.fdiv usecPerDay - 1 := by
    intro a
    have hpos : (0 : Int) ≤ usecPerDay := by norm_num [usecPerDay]
    have hne : usecPerDay ≠ (0 : Int) := by norm_num [usecPerDay]
    rw [Int.fdiv_eq_ediv _ hpos, Int.fdiv_eq_ediv _ hpos]
    have hsub : a - usecPerDay = a + (-1) * usecPerDay := by ring
    rw [hsub, Int.add_mul_ediv_right _ _ hne]
    ring
  have hw : yesterdayRangeUtc now1 = yesterdayRangeUtc now2 := by
    simp only [yesterdayRangeUtc]
    rw [key, key, h]
  simp [filterPreviousDay, hw]

/-- C3 witness: two clock readings on 2024-03-15 give identical filter
results. -/
theorem c3_witness :
    (utcUs 2024 3 15 10 0 0 0).fdiv usecPerDay
      = (utcUs 2024 3 15 23 0 0 0).fdiv usecPerDay ∧
    filterPreviousDay (utcUs 2024 3 15 10 0 0 0) [mar14Entry]
      = filterPreviousDay (utcUs 2024 3 15 23 0 0 0) [mar14Entry] :=
  ⟨by decide, c3_same_day_same_window _ _ [mar14Entry] (by decide)⟩

theorem countNeedy_cons (mc : Nat) (line : String) (xs : List String) :
    countNeedy mc (line :: xs)
      = (if needsSummary mc line then 1 else 0) + countNeedy mc xs := by
  simp only [countNeedy, List.filter_cons]
  split <;> simp [Nat.add_comm]

theorem summarizeRunAux_count_le (call : String → Except String String) (mc k : Nat) :
    ∀ (lines : List String) (c : Nat), c ≤ k →
      (summarizeRunAux call mc k lines c).2 ≤ k := by
  intro lines
  induction lines with
  | nil => intro c h; simpa [summarizeRunAux] using h
  | cons line rest ih =>
    intro c h
    by_cases hn : needsSummary mc line = true
    · by_cases hck : k ≤ c
      · simpa [summarizeRunAux, hn, ge_iff_le, hck] using ih c h
      · simpa [summarizeRunAux, hn, ge_iff_le, hck] using ih (c + 1) (by omega)
    · simpa [summarizeRunAux, hn] using ih c h

theorem summarizeRunAux_pass (call : String → Except String String) (mc k : Nat) :
    ∀ (lines : List String) (c i : Nat),
      k ≤ c + countNeedy mc (lines.take i) →
      ((summarizeRunAux call mc k lines c).1).getD i ""
        = lines.getD i "" := by
  intro lines
  induction lines with
  | nil => intro c i h; simp [summarizeRunAux]
  | cons line rest ih =>
    intro c i h
    cases i with
    | zero =>
      have hck : k ≤ c := by simpa [countNeedy] using h
      by_cases hn : needsSummary mc line = true
      · simp [summarizeRunAux, hn, ge_iff_le, hck]
      · simp [summarizeRunAux, hn]
    | succ i =>
      rw [List.take_succ_cons, countNeedy_cons] at h
      by_cases hn : needsSummary mc line = true
      · by_cases hck : k ≤ c
        · simpa [summarizeRunAux, hn, ge_iff_le, hck] using ih c i (by omega)
        · simpa [summarizeRunAux, hn, ge_iff_le, hck] using
            ih (c + 1) i (by simp [hn] at h; omega)
      · simpa [summarizeRunAux, hn] using ih c i (by simp [hn] at h; omega)

/-- C4: in one summarization run the `lines_summarized` counter (which
bounds the number of summarization calls, successful or not) never
exceeds the configured maximum; every line at an index where the budget
is already exhausted passes through unchanged; and with maxCalls=2 and 5
over-length bullets exactly the first 2 are summarized while the other 3
are kept verbatim, in original order. -/
theorem c4_call_budget :
    (∀ (call : String → Except String String) (mc k : Nat) (lines : List String),
      (summarizeRun call mc k lines).2 ≤ k) ∧
    (∀ (call : String → Except String String) (mc k : Nat) (lines : List String) (i : Nat),
      k ≤ countNeedy mc (lines.take i) →
      ((summarizeRun call mc k lines).1).getD i "" = lines.getD i "") ∧
    summarizeRun (fun t => .ok t) 3 2 ["- xxx1", "- xxx2", "- xxx3", "- xxx4", "- xxx5"]
      = (["- \"xxx1\"", "- \"xxx2\"", "- xxx3", "- xxx4", "- xxx5"], 2) :=
  ⟨fun call mc k lines => summarizeRunAux_count_le call mc k lines 0 (Nat.zero_le k),
   fun call mc k lines i h => summarizeRunAux_pass call mc k lines 0 i (by simpa using h),
   by decide⟩

/-- C4 witness: in the 5-bullet scenario the budget (2) is exhausted
before index 4, so the fifth bullet is returned verbatim. -/
theorem c4_witness :
    2 ≤ countNeedy 3 (["- xxx1", "- xxx2", "- xxx3", "- xxx4", "- xxx5"].take 4) ∧
    ((summarizeRun (fun t => Except.ok t) 3 2
        ["- xxx1", "- xxx2", "- xxx3", "- xxx4", "- xxx5"]).1).getD 4 "" = "- xxx5" :=
  ⟨by decide,
   (c4_call_budget.2.1 (fun t => Except.ok t) 3 2
      ["- xxx1", "- xxx2", "- xxx3", "- xxx4", "- xxx5"] 4 (by decide)).trans rfl⟩

/-- C5: a bullet whose message text (before the trailing link suffix) fits
the budget is returned unchanged with no API call; an over-length bullet
sends exactly the extracted message text (never the link) through the
call, and on a successful non-empty summary the original link suffix is
reattached verbatim after the quoted summary. -/
theorem c5_link_preserved :
    ∀ (call : String → Except String String) (maxChars : Nat) (line : String),
      (pyStartsWith line "- " = true →
        (pyStrip (strDrop (splitLink line).1 2)).length ≤ maxChars →
        summarizeLineT call maxChars line = (line, [])) ∧
      (needsSummary maxChars line = true →
        (summarizeLineT call maxChars line).2
          = [pyStrip (strDrop (splitLink line).1 2)] ∧
        ∀ s, call (pyStrip (strDrop (splitLink line).1 2)) = .ok s → s ≠ "" →
          (summarizeLineT call maxChars line).1
            = "- " ++ wrapSummary s ++ (splitLink line).2) := by
  intro call maxChars line
  constructor
  · intro hs hlen
    simp [summarizeLineT, hs, hlen]
  · intro hn
    simp only [needsSummary, Bool.and_eq_true, decide_eq_true_eq] at hn
    obtain ⟨hs, hgt⟩ := hn
    have hlen : ¬ ((pyStrip (strDrop (splitLink line).1 2)).length ≤ maxChars) := by omega
    constructor
    · cases hc : call (pyStrip (strDrop (splitLink line).1 2)) with
      | error e => simp [summarizeLineT, hs, hlen, hc]
      | ok s =>
        by_cases hse : s = "" <;> simp [summarizeLineT, hs, hlen, hc, hse]
    · intro s hcall hne
      simp [summarizeLineT, hs, hlen, hcall, hne]

/-- C5 witness: a 2-char message with budget 3 passes untouched; a 7-char
message with budget 3 is summarized and keeps its ` [A](u)` suffix. -/
theorem c5_witness :
    summarizeLineT (fun t => Except.ok ("S:" ++ t)) 3 "- ab [A](u)" = ("- ab [A](u)", []) ∧
    (summarizeLineT (fun t => Except.ok ("S:" ++ t)) 3 "- abcdefg [A](u)").1
      = "- " ++ wrapSummary "S:abcdefg" ++ " [A](u)" := by
  constructor
  · exact (c5_link_preserved (fun t => Except.ok ("S:" ++ t)) 3 "- ab [A](u)").1
      (by decide) (by decide)
  · exact (((c5_link_preserved (fun t => Except.ok ("S:" ++ t)) 3
      "- abcdefg [A](u)").2 (by decide)).2 "S:abcdefg" (by rfl) (by decide)).trans
      (by rfl)

/-- C6: with the default of 3 attempts, a call whose first two attempts
fail with a rate-limit signal and whose third succeeds (within the length
budget) returns the successful content without raising, having backed off
twice; each rate-limit backoff prefers a positive server-supplied
Retry-After and otherwise uses `retryDelay * 2 ^ attempt`. -/
theorem c6_retry_backoff :
    ∀ (results : String → Nat → CallResult) (tok prompt c : String)
      (f0 f1 : CallFailure) (retryDelay : Int) (maxInput maxChars : Nat),
      results (truncInput prompt maxInput) 0 = .failure f0 →
      results (truncInput prompt maxInput) 1 = .failure f1 →
      isRateLimitFailure f0 = true →
      isRateLimitFailure f1 = true →
      results (truncInput prompt maxInput) 2 = .success c →
      c.length ≤ maxChars →
      callGithubModels (some tok) results 3 retryDelay maxInput maxChars prompt
        = .ok (c, [rateLimitDelay retryDelay 0 f0, rateLimitDelay retryDelay 1 f1]) ∧
      (f0.retryAfter = none → rateLimitDelay retryDelay 0 f0 = retryDelay * 2 ^ 0) ∧
      (∀ r, f1.retryAfter = some r → 0 < r → rateLimitDelay retryDelay 1 f1 = r) := by
  intro results tok prompt c f0 f1 retryDelay maxInput maxChars h0 h1 hr0 hr1 h2 hlen
  refine ⟨?_, ?_, ?_⟩
  · have hnl : ¬ (c.length > maxChars) := by omega
    rw [callGithubModels]
    rw [callLoop]; simp only [h0, hr0, if_false]
    norm_num
    rw [callLoop]; simp only [h1, hr1, if_false]
    norm_num
    rw [callLoop]; simp only [h2]
    simp [hnl]
  · intro h
    simp [rateLimitDelay, h]
  · intro r h hpos
    simp [rateLimitDelay, h, show ¬ (r ≤ 0) from by omega]

/-- C6 witness: two concrete rate-limited failures (one textual, one with
Retry-After 7), then success. -/
theorem c6_witness :
    callGithubModels (some "t")
      (fun _ i => if i = 0 then .failure ⟨"429 too many requests", none⟩
        else if i = 1 then .failure ⟨"rate limited", some 7⟩ else .success "ok")
      3 2 10000 100 "p" = .ok ("ok", [2, 7]) :=
  (c6_retry_backoff
    (fun _ i => if i = 0 then .failure ⟨"429 too many requests", none⟩
      else if i = 1 then .failure ⟨"rate limited", some 7⟩ else .success "ok")
    "t" "p" "ok" ⟨"429 too many requests", none⟩ ⟨"rate limited", some 7⟩ 2 10000 100
    (by rfl) (by rfl) (by decide) (by decide) (by rfl) (by decide)).1.trans (by rfl)

/-- C7: with a non-empty link a bullet message is rendered as
`{message} [{label}]({link})`, followed for share-enabled categories by
` [Bsky](<compose-intent URL>)` built by URL-encoding `{message} {link}`;
an empty link yields the bare message; the four category bullet builders
use labels Article, Video, Post, Release with the share suffix omitted
exactly for Bluesky. -/
theorem c7_bullet_shape :
    ∀ (message link lbl : String) (e : FeedEntry) (repo : String) (latest : FeedEntry),
      (formatLinkPair message "" lbl true = message) ∧
      (formatLinkPair message "" lbl false = message) ∧
      (link ≠ "" → formatLinkPair message link lbl true
        = message ++ " [" ++ lbl ++ "](" ++ link ++ ") [Bsky](" ++
            bskyShareUrl message link ++ ")") ∧
      (link ≠ "" → formatLinkPair message link lbl false
        = message ++ " [" ++ lbl ++ "](" ++ link ++ ")") ∧
      bskyShareUrl message link
        = "https://bsky.app/intent/compose?text=" ++ quotePlus (message ++ " " ++ link) ∧
      quotePlus "hi there http://x" = "hi+there+http%3A%2F%2Fx" ∧
      blogBullet e
        = "- " ++ formatLinkPair (blogMessageOf e) (pyOrStr (some e.link) "") "Article" true ∧
      youtubeBullet e
        = "- " ++ formatLinkPair (blogMessageOf e) (pyOrStr (some e.link) "") "Video" true ∧
      bskyBullet e
        = "- " ++ formatLinkPair (bskyMessageOf e) (pyOrStr (some e.link) "") "Post" false ∧
      githubBullet repo latest
        = "- " ++ formatLinkPair
            (if latest.message ≠ "" ∧ latest.message ≠ pyOrStr (some latest.title) "Untitled"
              then repo ++ ": " ++ pyOrStr (some latest.title) "Untitled" ++ " — " ++
                latest.message
              else repo ++ ": " ++ pyOrStr (some latest.title) "Untitled")
            (pyOrStr (some latest.link) ("https://github.com/" ++ repo ++ "/releases"))
            "Release" true := by
  intro message link lbl e repo latest
  refine ⟨by simp [formatLinkPair], by simp [formatLinkPair], ?_, ?_, rfl, by decide,
    rfl, rfl, rfl, rfl⟩
  · intro h
    simp [formatLinkPair, h]
  · intro h
    simp [formatLinkPair, h]

/-- C7 witness: the non-empty-link clauses at a concrete message and link. -/
theorem c7_witness :
    formatLinkPair "m" "http://x" "Article" true
      = "m" ++ " [" ++ "Article" ++ "](" ++ "http://x" ++ ") [Bsky](" ++
          bskyShareUrl "m" "http://x" ++ ")" ∧
    formatLinkPair "m" "http://x" "Post" false
      = "m" ++ " [" ++ "Post" ++ "](" ++ "http://x" ++ ")" :=
  ⟨(c7_bullet_shape "m" "http://x" "Article" ⟨"", "", "", none⟩ "" ⟨"", "", "", none⟩).2.2.1
      (by decide),
   (c7_bullet_shape "m" "http://x" "Post" ⟨"", "", "", none⟩ "" ⟨"", "", "", none⟩).2.2.2.1
      (by decide)⟩

/-- C8 counterexample: with no token in the environment, a run over one
over-length bullet completes normally — the missing-credentials error is
caught inside `_summarize_line` and the line is kept — instead of the
summarization pass failing. -/
theorem c8_counterexample :
    summarizeRun
      (fun p => (callGithubModels none (fun _ _ => .success "ignored") 3 2 10000 3 p).map
        Prod.fst) 3 50 ["- xxxxx [A](u)"]
      = (["- xxxxx [A](u)"], 1) := by decide

/-- C8 amended: when no token is present every summarization call raises
the missing-credentials error, but each per-line error is caught, so the
summarization pass completes with every line unchanged rather than
failing; the digest-generation pass takes no token at all. -/
theorem c8_missing_token_nonfatal :
    ∀ (results : String → Nat → CallResult) (maxRetries : Nat) (retryDelay : Int)
      (maxInput maxCharsCall maxChars maxCalls : Nat) (lines : List String),
      (summarizeRun
        (fun p => (callGithubModels none results maxRetries retryDelay maxInput maxCharsCall
          p).map Prod.fst) maxChars maxCalls lines).1 = lines := by
  intro results maxRetries retryDelay maxInput maxCharsCall maxChars maxCalls lines
  have hline : ∀ line, summarizeLine
      (fun p => (callGithubModels none results maxRetries retryDelay maxInput maxCharsCall
        p).map Prod.fst) maxChars line = line := by
    intro line
    unfold summarizeLine summarizeLineT
    dsimp only
    split
    · rfl
    · split
      · rfl
      · rfl
  suffices h : ∀ (ls : List String) (c : Nat),
      (summarizeRunAux
        (fun p => (callGithubModels none results maxRetries retryDelay maxInput maxCharsCall
          p).map Prod.fst) maxChars maxCalls ls c).1 = ls by
    exact h lines 0
  intro ls
  induction ls with
  | nil => intro c; simp [summarizeRunAux]
  | cons line rest ih =>
    intro c
    by_cases hn : needsSummary maxChars line = true
    · by_cases hck : maxCalls ≤ c
      · simp [summarizeRunAux, hn, ge_iff_le, hck, ih]
      · simp [summarizeRunAux, hn, ge_iff_le, hck, ih, hline]
    · simp [summarizeRunAux, hn, ih]

theorem strAppend_empty (s : String) : s ++ "" = s := by
  calc s ++ "" = (s.toList ++ ([] : List Char)).asString := rfl
    _ = s.toList.asString := by rw [List.append_nil]
    _ = s := rfl

/-- C9: the link splitter always returns a pair whose concatenation is the
input line; when the line has no `"]("` marker, or its last `"]("` has no
`" ["` opener before it, the message is the whole line and the link part
is empty. -/
theorem c9_split_concat :
    ∀ line : String,
      (splitLink line).1 ++ (splitLink line).2 = line ∧
      ((pyRfind line "](" = none ∨
          ∃ idx, pyRfind line "](" = some idx ∧ pyRfindBefore line " [" idx = none) →
        (splitLink line).1 = line ∧ (splitLink line).2 = "") := by
  intro line
  constructor
  · unfold splitLink
    cases h1 : pyRfind line "](" with
    | none => exact strAppend_empty line
    | some idx =>
      dsimp only
      cases h2 : pyRfindBefore line " [" idx with
      | none => exact strAppend_empty line
      | some start =>
        show strTake line start ++ strDrop line start = line
        calc strTake line start ++ strDrop line start
            = (line.toList.take start ++ line.toList.drop start).asString := rfl
          _ = line.toList.asString := by rw [List.take_append_drop]
          _ = line := rfl
  · intro h
    unfold splitLink
    rcases h with h | ⟨idx, hi, hb⟩
    · simp only [h]
      exact ⟨trivial, trivial⟩
    · simp only [hi]
      simp only [hb]
      exact ⟨trivial, trivial⟩

/-- C9 witness: a line with a labeled link splits and reassembles; a line
without the marker keeps everything in the message part. -/
theorem c9_witness :
    (splitLink "- t [A](u)").1 ++ (splitLink "- t [A](u)").2 = "- t [A](u)" ∧
    ((splitLink "- plain").1 = "- plain" ∧ (splitLink "- plain").2 = "") :=
  ⟨(c9_split_concat "- t [A](u)").1,
   (c9_split_concat "- plain").2 (Or.inl (by decide))⟩

theorem pyOrStr_ne (a : Option String) (b : String) (h : b ≠ "") : pyOrStr a b ≠ "" := by
  unfold pyOrStr
  cases a with
  | none => exact h
  | some s =>
    by_cases hs : s = "" <;> simp [hs, h]

/-- C10: every entry produced by the RSS and Atom parsers has a non-empty
title and a non-empty message, and whenever the selected body text cleans
to the empty string the message is the literal `"Untitled"`. -/
theorem c10_nonempty_fields :
    ∀ (dp : Option String → Option PyDateTime) (root item entry : Xml) (e : FeedEntry),
      (e ∈ parseRssItems dp root → e.title ≠ "" ∧ e.message ≠ "") ∧
      (e ∈ parseAtomEntries dp root → e.title ≠ "" ∧ e.message ≠ "") ∧
      (cleanText (rssBody item (pyOrStr (childText item "title") "Untitled")) = "" →
        (rssEntryOfItem dp item).message = "Untitled") ∧
      (cleanText (atomBody entry (pyOrStr (childText entry "title") "Untitled")) = "" →
        (atomEntryOf dp entry).message = "Untitled") := by
  intro dp root item entry e
  have hrss : ∀ it, (rssEntryOfItem dp it).title ≠ "" ∧ (rssEntryOfItem dp it).message ≠ "" := by
    intro it
    constructor
    · show pyOrStr (childText it "title") "Untitled" ≠ ""
      exact pyOrStr_ne _ _ (by decide)
    · show pyOrStr
        (some (cleanText (rssBody it (pyOrStr (childText it "title") "Untitled"))))
        "Untitled" ≠ ""
      exact pyOrStr_ne _ _ (by decide)
  have hatom : ∀ it, (atomEntryOf dp it).title ≠ "" ∧ (atomEntryOf dp it).message ≠ "" := by
    intro it
    constructor
    · show pyOrStr (childText it "title") "Untitled" ≠ ""
      exact pyOrStr_ne _ _ (by decide)
    · show pyOrStr
        (some (cleanText (atomBody it (pyOrStr (childText it "title") "Untitled"))))
        "Untitled" ≠ ""
      exact pyOrStr_ne _ _ (by decide)
  refine ⟨?_, ?_, ?_, ?_⟩
  · intro hm
    unfold parseRssItems at hm
    cases hch : firstChannel root with
    | none => rw [hch] at hm; cases hm
    | some ch =>
      rw [hch] at hm
      obtain ⟨it, _, rfl⟩ := List.mem_map.mp hm
      exact hrss it
  · intro hm
    unfold parseAtomEntries at hm
    obtain ⟨it, _, rfl⟩ := List.mem_map.mp hm
    exact hatom it
  · intro h
    show pyOrStr
      (some (cleanText (rssBody item (pyOrStr (childText item "title") "Untitled"))))
      "Untitled" = "Untitled"
    rw [h]
    decide
  · intro h
    show pyOrStr
      (some (cleanText (atomBody entry (pyOrStr (childText entry "title") "Untitled"))))
      "Untitled" = "Untitled"
    rw [h]
    decide

/-- An RSS item whose description cleans to the empty string. -/
def c10Item : Xml :=
  .elem "item" [] none
    [.elem "title" [] (some "T") [], .elem "description" [] (some "<p></p>") []]

def c10RssRoot : Xml :=
  .elem "rss" [] none [.elem "channel" [] none [c10Item]]

/-- An Atom entry whose summary cleans to the empty string. -/
def c10Entry : Xml :=
  .elem "entry" [] none
    [.elem "title" [] (some "T") [], .elem "summary" [] (some "<p></p>") []]

def c10AtomRoot : Xml :=
  .elem "feed" [] none [c10Entry]

def dpNone : Option String → Option PyDateTime := fun _ => none

/-- C10 witness: a parsed RSS item and Atom entry whose bodies clean to
the empty string still carry non-empty fields, with message `"Untitled"`. -/
theorem c10_witness :
    ((rssEntryOfItem dpNone c10Item).title ≠ "" ∧ (rssEntryOfItem dpNone c10Item).message ≠ "") ∧
    ((atomEntryOf dpNone c10Entry).title ≠ "" ∧ (atomEntryOf dpNone c10Entry).message ≠ "") ∧
    (rssEntryOfItem dpNone c10Item).message = "Untitled" ∧
    (atomEntryOf dpNone c10Entry).message = "Untitled" := by
  have hmem : parseRssItems dpNone c10RssRoot = [rssEntryOfItem dpNone c10Item] := by rfl
  have hmema : parseAtomEntries dpNone c10AtomRoot = [atomEntryOf dpNone c10Entry] := by rfl
  have hclean :
      cleanText (rssBody c10Item (pyOrStr (childText c10Item "title") "Untitled")) = "" := by
    rfl
  have hcleana :
      cleanText (atomBody c10Entry (pyOrStr (childText c10Entry "title") "Untitled")) = "" := by
    rfl
  refine ⟨(c10_nonempty_fields dpNone c10RssRoot c10Item c10Entry
      (rssEntryOfItem dpNone c10Item)).1 ?_,
    (c10_nonempty_fields dpNone c10AtomRoot c10Item c10Entry
      (atomEntryOf dpNone c10Entry)).2.1 ?_,
    (c10_nonempty_fields dpNone c10RssRoot c10Item c10Entry
      (rssEntryOfItem dpNone c10Item)).2.2.1 hclean,
    (c10_nonempty_fields dpNone c10AtomRoot c10Item c10Entry
      (atomEntryOf dpNone c10Entry)).2.2.2 hcleana⟩
  · rw [hmem]
    exact List.mem_singleton_self _
  · rw [hmema]
    exact List.mem_singleton_self _
